/-
Verification of the evefrontier fixture-extraction scripts.

Shallow embedding of the Python scripts in scripts/:
  * extract_route_fixture.py   (corridor analysis and referential closure)
  * extract_fixture_from_dataset.py (seed resolution, gate adjacency, closure)
  * fixture_status.py          (fingerprint record / verify)
  * analyze_sample_routes.py   (frequency reporting)

SQLite INTEGER columns are modelled as Int, REAL coordinate columns as Rat
(the scripts only compare distances; SQRT(x)/c <= m over the reals is encoded
as the equivalent squared comparison).  SQL "IN (...)" filters are List
membership; for the empty list SQLite matches no rows, which List membership
in [] reproduces.  Python sets are modelled as lists with first-occurrence
deduplication (dict / Counter insertion order), where only membership or
order of iteration is ever observed.
-/
import Mathlib

/-- First-occurrence deduplication: the iteration order of a Python dict or
Counter built by repeated insertion (later duplicates are dropped). -/
def firstDedup : List Int → List Int
  | [] => []
  | a :: l => a :: (firstDedup l).filter (fun b => decide (b ≠ a))

/-- Dictionary lookup on an association list built by repeated assignment:
the last binding of a key wins, as in a Python dict comprehension. -/
def dictLookup (l : List (String × Int)) (k : String) : Option Int :=
  (l.reverse.find? (fun p => decide (p.1 = k))).map (fun p => p.2)

/- ### Data model

Rows of the source dataset tables (section 6 of the spec; schema created in
extract_route_fixture.py lines 121-204).  Physical-attribute payload columns
that no query filters on are not modelled; the id columns, names and
coordinates that the scripts read are. -/

structure RegionRow where
  regionId : Int
  name : String
deriving DecidableEq, Repr

structure ConstellationRow where
  constellationId : Int
  name : String
  regionId : Int
deriving DecidableEq, Repr

structure SolarSystemRow where
  solarSystemId : Int
  name : String
  regionId : Int
  constellationId : Int
  centerX : ℚ
  centerY : ℚ
  centerZ : ℚ
deriving DecidableEq, Repr

structure JumpRow where
  fromSystemId : Int
  toSystemId : Int
deriving DecidableEq, Repr

structure PlanetRow where
  planetId : Int
  solarSystemId : Int
deriving DecidableEq, Repr

structure MoonRow where
  moonId : Int
  planetId : Int
deriving DecidableEq, Repr

/-- A source dataset: the relational store read by both extraction scripts. -/
structure Dataset where
  regions : List RegionRow
  constellations : List ConstellationRow
  solarSystems : List SolarSystemRow
  jumps : List JumpRow
  planets : List PlanetRow
  moons : List MoonRow
deriving DecidableEq, Repr

/-- The rows materialized into the output fixture store. -/
structure FixtureOutput where
  regions : List RegionRow
  constellations : List ConstellationRow
  solarSystems : List SolarSystemRow
  jumps : List JumpRow
  planets : List PlanetRow
  moons : List MoonRow
deriving DecidableEq, Repr

namespace RouteFixture

/- ### extract_route_fixture.py -/

/-- One parsed row of SampleRoutes.csv as built by analyze_sample_routes
(extract_route_fixture.py lines 41-58).  start_id and end_id are
path_ids.head / path_ids.last and are not separately modelled; the float
maxLightyears column is never used by the analysis. -/
structure RouteRec where
  route_id : Int
  avoid_gates : Bool
  path_ids : List Int
deriving DecidableEq, Repr

/-- all_system_ids: every hop id of every route, concatenated with
multiplicity (lines 45-49). -/
def all_system_ids (routes : List RouteRec) : List Int :=
  (routes.map (fun r => r.path_ids)).flatten

/-- counts = Counter(all_system_ids) (line 61). -/
def counts (routes : List RouteRec) (i : Int) : Nat :=
  (all_system_ids routes).count i

/-- corridor_systems: ids whose occurrence count is at least the threshold
(line 64).  Counter.items() iterates the distinct ids in first-occurrence
order, so the candidates are firstDedup of all_system_ids. -/
def corridor_systems (routes : List RouteRec) (threshold : Int) : List Int :=
  (firstDedup (all_system_ids routes)).filter
    (fun i => decide (threshold ≤ (counts routes i : Int)))

/-- corridor_routes: routes all of whose hops are corridor systems (line 67). -/
def corridor_routes (routes : List RouteRec) (threshold : Int) : List RouteRec :=
  routes.filter
    (fun r => r.path_ids.all (fun i => decide (i ∈ corridor_systems routes threshold)))

/-- The percentage printed on line 72: 100*len(corridor_routes)/len(routes),
real (Python float) division. -/
def coverage_pct (routes : List RouteRec) (threshold : Int) : ℚ :=
  100 * ((corridor_routes routes threshold).length : ℚ) / (routes.length : ℚ)

/-- extract_fixture_data (lines 77-296): the referential closure over a target
system-id set, materialized into the output store.  SQL IN-filters become
membership tests; SELECT DISTINCT only deduplicates, which membership does
not observe, and sorted(system_ids) only fixes SQL parameter order. -/
def extract_fixture_data (src : Dataset) (system_ids : List Int) : FixtureOutput :=
  let sysRows : List SolarSystemRow :=
    src.solarSystems.filter (fun s => decide (s.solarSystemId ∈ system_ids))
  let constellation_ids : List Int := sysRows.map (fun s => s.constellationId)
  let region_ids : List Int := sysRows.map (fun s => s.regionId)
  let jumps := src.jumps.filter
    (fun j => decide (j.fromSystemId ∈ system_ids ∧ j.toSystemId ∈ system_ids))
  let regions := src.regions.filter (fun r => decide (r.regionId ∈ region_ids))
  let constellations := src.constellations.filter
    (fun c => decide (c.constellationId ∈ constellation_ids))
  let planets := src.planets.filter (fun p => decide (p.solarSystemId ∈ system_ids))
  let planet_ids : List Int := planets.map (fun p => p.planetId)
  let moons :=
    if planet_ids.isEmpty then []
    else src.moons.filter (fun m => decide (m.planetId ∈ planet_ids))
  ⟨regions, constellations, sysRows, jumps, planets, moons⟩

end RouteFixture

namespace DatasetFixture

/- ### extract_fixture_from_dataset.py -/

/-- LIGHT_YEAR_METERS = 9.461e15 (line 17). -/
def LIGHT_YEAR_METERS : ℚ := 9461 * 10 ^ 12

/-- MAX_DISTANCE_LY = 80.0 (line 18). -/
def MAX_DISTANCE_LY : ℚ := 80

/-- get_target_system_ids (lines 20-30): resolve the named seed systems to a
name-to-id dictionary; exit(1) when Nod or Brana is missing.  The dict
comprehension keeps the last row per name, which dictLookup reproduces;
the required-seed test only observes key membership. -/
def get_target_system_ids (d : Dataset) : Except String (List (String × Int)) :=
  let rows : List SolarSystemRow :=
    d.solarSystems.filter (fun s => decide (s.name ∈ ["Nod", "Brana", "E1J-M5G"]))
  let systems : List (String × Int) := rows.map (fun s => (s.name, s.solarSystemId))
  if ("Nod" ∈ systems.map (fun p => p.1)) ∧ ("Brana" ∈ systems.map (fun p => p.1)) then
    Except.ok systems
  else
    Except.error ("Error: Could not find required systems.")

/-- get_gate_connected_systems (lines 32-49): SELECT DISTINCT over the UNION
of gate neighbors in both directions and the targets that exist in
SolarSystems.  UNION/DISTINCT deduplicate, hence firstDedup. -/
def get_gate_connected_systems (d : Dataset) (target_ids : List Int) : List Int :=
  firstDedup
    ((d.jumps.filter (fun j => decide (j.toSystemId ∈ target_ids))).map
        (fun j => j.fromSystemId)
      ++ (d.jumps.filter (fun j => decide (j.fromSystemId ∈ target_ids))).map
        (fun j => j.toSystemId)
      ++ (d.solarSystems.filter (fun s => decide (s.solarSystemId ∈ target_ids))).map
        (fun s => s.solarSystemId))

/-- get_nearby_systems (lines 51-72): systems whose Euclidean distance to
Brana, divided by LIGHT_YEAR_METERS, is at most max_distance_ly.  Over the
reals SQRT(q)/c <= m (c, m > 0) is equivalent to q <= (m*c)^2, which is the
squared comparison used here.  A missing Brana row (fetchone returning
nothing) is an error. -/
def get_nearby_systems (d : Dataset) (brana_id : Int) (max_distance_ly : ℚ) :
    Except String (List Int) :=
  match d.solarSystems.find? (fun s => decide (s.solarSystemId = brana_id)) with
  | none => Except.error ("Brana coordinates not found")
  | some b =>
    Except.ok
      ((d.solarSystems.filter (fun s =>
          decide ((s.centerX - b.centerX) ^ 2 + (s.centerY - b.centerY) ^ 2
              + (s.centerZ - b.centerZ) ^ 2
            ≤ (max_distance_ly * LIGHT_YEAR_METERS) ^ 2))).map
        (fun s => s.solarSystemId))

/-- extract_fixture_data (lines 74-202): seed resolution, gate adjacency and
radius criteria, union, then the referential closure, materialized into the
output store.  The optional NpcStations table (lines 187-194) is probed and
skipped when absent; no claim concerns it and it is not modelled.  A failed
seed resolution aborts before any output exists, which the error value of
the Except models. -/
def extract_fixture_data (d : Dataset) : Except String FixtureOutput :=
  match get_target_system_ids d with
  | Except.error e => Except.error e
  | Except.ok target_systems =>
    match dictLookup target_systems ("Brana") with
    | none => Except.error ("Brana not resolved")
    | some brana_id =>
      let target_ids : List Int := target_systems.map (fun p => p.2)
      let gate_systems : List Int := get_gate_connected_systems d target_ids
      match get_nearby_systems d brana_id MAX_DISTANCE_LY with
      | Except.error e => Except.error e
      | Except.ok nearby_systems =>
        let all_systems : List Int := firstDedup (gate_systems ++ nearby_systems)
        let sysRows : List SolarSystemRow :=
          d.solarSystems.filter (fun s => decide (s.solarSystemId ∈ all_systems))
        let region_ids : List Int := sysRows.map (fun s => s.regionId)
        let constellation_ids : List Int := sysRows.map (fun s => s.constellationId)
        let regions : List RegionRow :=
          d.regions.filter (fun r => decide (r.regionId ∈ region_ids))
        let constellations : List ConstellationRow :=
          d.constellations.filter (fun c => decide (c.constellationId ∈ constellation_ids))
        let jumps : List JumpRow :=
          d.jumps.filter
            (fun j => decide (j.fromSystemId ∈ all_systems ∧ j.toSystemId ∈ all_systems))
        let planets : List PlanetRow :=
          d.planets.filter (fun p => decide (p.solarSystemId ∈ all_systems))
        let planet_ids : List Int := planets.map (fun p => p.planetId)
        let moons : List MoonRow :=
          if planet_ids.isEmpty then []
          else d.moons.filter (fun m => decide (m.planetId ∈ planet_ids))
        Except.ok ⟨regions, constellations, sysRows, jumps, planets, moons⟩

end DatasetFixture

namespace Sha256

/- ### hashlib.sha256

Both scripts hash through Python's hashlib.  hashlib is the standard library,
not code of this repository; it is modelled here from FIPS 180-4, keeping the
incremental update/finalize interface the scripts call: update absorbs bytes
(compressing each complete 64-byte block and buffering the remainder) and
hexdigest pads with the message bit length and emits the state in lowercase
hex.  Bytes are Nat values below 256; 32-bit words are Nat reduced mod 2^32. -/

/-- Reduce to a 32-bit word. -/
def w32 (n : Nat) : Nat := n % 4294967296

/-- Right rotation of a 32-bit word. -/
def rotr (x n : Nat) : Nat := w32 ((x >>> n) ||| (x <<< (32 - n)))

/-- Bitwise complement of a 32-bit word. -/
def wnot (x : Nat) : Nat := x ^^^ 4294967295

def ch (x y z : Nat) : Nat := (x &&& y) ^^^ (wnot x &&& z)

def maj (x y z : Nat) : Nat := (x &&& y) ^^^ (x &&& z) ^^^ (y &&& z)

def bigSigma0 (x : Nat) : Nat := rotr x 2 ^^^ rotr x 13 ^^^ rotr x 22

def bigSigma1 (x : Nat) : Nat := rotr x 6 ^^^ rotr x 11 ^^^ rotr x 25

def smallSigma0 (x : Nat) : Nat := rotr x 7 ^^^ rotr x 18 ^^^ (x >>> 3)

def smallSigma1 (x : Nat) : Nat := rotr x 17 ^^^ rotr x 19 ^^^ (x >>> 10)

/-- The 64 round constants K of FIPS 180-4, written in decimal. -/
def K : List Nat :=
  [1116352408, 1899447441, 3049323471, 3921009573, 961987163,
   1508970993, 2453635748, 2870763221, 3624381080, 310598401,
   607225278, 1426881987, 1925078388, 2162078206, 2614888103,
   3248222580, 3835390401, 4022224774, 264347078, 604807628,
   770255983, 1249150122, 1555081692, 1996064986, 2554220882,
   2821834349, 2952996808, 3210313671, 3336571891, 3584528711,
   113926993, 338241895, 666307205, 773529912, 1294757372,
   1396182291, 1695183700, 1986661051, 2177026350, 2456956037,
   2730485921, 2820302411, 3259730800, 3345764771, 3516065817,
   3600352804, 4094571909, 275423344, 430227734, 506948616,
   659060556, 883997877, 958139571, 1322822218, 1537002063,
   1747873779, 1955562222, 2024104815, 2227730452, 2361852424,
   2428436474, 2756734187, 3204031479, 3329325298]

/-- The eight working variables of the compression function. -/
structure Words8 where
  a : Nat
  b : Nat
  c : Nat
  d : Nat
  e : Nat
  f : Nat
  g : Nat
  h : Nat
deriving DecidableEq, Repr

/-- The initial hash value H0 of FIPS 180-4, written in decimal. -/
def H0 : Words8 :=
  ⟨1779033703, 3144134277, 1013904242, 2773480762,
   1359893119, 2600822924, 528734635, 1541459225⟩

/-- Big-endian 32-bit words from a byte list (groups of 4). -/
def toWords : List Nat → List Nat
  | b0 :: b1 :: b2 :: b3 :: rest =>
    (((b0 * 256 + b1) * 256 + b2) * 256 + b3) :: toWords rest
  | _ => []

/-- Extend the 16 schedule words by one more entry. -/
def extendStep (w : List Nat) : List Nat :=
  let l := w.length
  w ++ [w32 (smallSigma1 (w.getD (l - 2) 0) + w.getD (l - 7) 0
    + smallSigma0 (w.getD (l - 15) 0) + w.getD (l - 16) 0)]

/-- Iterate the schedule extension. -/
def extendSchedule : Nat → List Nat → List Nat
  | 0, w => w
  | n + 1, w => extendSchedule n (extendStep w)

/-- One round of the compression function with a (schedule word, constant)
pair. -/
def round (s : Words8) (wk : Nat × Nat) : Words8 :=
  let t1 := w32 (s.h + bigSigma1 s.e + ch s.e s.f s.g + wk.2 + wk.1)
  let t2 := w32 (bigSigma0 s.a + maj s.a s.b s.c)
  ⟨w32 (t1 + t2), s.a, s.b, s.c, w32 (s.d + t1), s.e, s.f, s.g⟩

/-- The SHA-256 compression function on one 64-byte block. -/
def compress (hv : Words8) (block : List Nat) : Words8 :=
  let ws := extendSchedule 48 (toWords block)
  let s := (ws.zip K).foldl round hv
  ⟨w32 (hv.a + s.a), w32 (hv.b + s.b), w32 (hv.c + s.c), w32 (hv.d + s.d),
   w32 (hv.e + s.e), w32 (hv.f + s.f), w32 (hv.g + s.g), w32 (hv.h + s.h)⟩

/-- Absorb every complete 64-byte block of the data, returning the new chain
value and the remaining (fewer than 64) buffered bytes. -/
def absorbBlocks (hv : Words8) (d : List Nat) : Words8 × List Nat :=
  if hd : 64 ≤ d.length then absorbBlocks (compress hv (d.take 64)) (d.drop 64)
  else (hv, d)
termination_by d.length
decreasing_by
  simp only [List.length_drop]
  omega

/-- The incremental hashing state: chain value, buffered bytes, total number
of bytes absorbed so far. -/
structure HashState where
  hs : Words8
  buffer : List Nat
  msgLen : Nat
deriving DecidableEq, Repr

/-- hashlib.sha256() with no data: the empty state. -/
def init : HashState := ⟨H0, [], 0⟩

/-- sha.update(chunk): absorb more bytes. -/
def update (st : HashState) (chunk : List Nat) : HashState :=
  let r := absorbBlocks st.hs (st.buffer ++ chunk)
  ⟨r.1, r.2, st.msgLen + chunk.length⟩

/-- Big-endian bytes of n, width w. -/
def beBytes : Nat → Nat → List Nat
  | 0, _ => []
  | w + 1, n => beBytes w (n / 256) ++ [n % 256]

/-- The Merkle-Damgard padding: 0x80, zeros to 56 mod 64, then the 8-byte
big-endian bit length of the whole message. -/
def padding (st : HashState) : List Nat :=
  [128] ++ List.replicate ((119 - st.buffer.length % 64) % 64) 0
    ++ beBytes 8 (st.msgLen * 8)

/-- Final chain value after padding. -/
def finalWords (st : HashState) : Words8 :=
  (absorbBlocks st.hs (st.buffer ++ padding st)).1

/-- Lowercase hex of one 32-bit word (8 digits). -/
def wordHex (w : Nat) : String :=
  String.mk
    [Nat.digitChar (w / 16 ^ 7 % 16), Nat.digitChar (w / 16 ^ 6 % 16),
     Nat.digitChar (w / 16 ^ 5 % 16), Nat.digitChar (w / 16 ^ 4 % 16),
     Nat.digitChar (w / 16 ^ 3 % 16), Nat.digitChar (w / 16 ^ 2 % 16),
     Nat.digitChar (w / 16 % 16), Nat.digitChar (w % 16)]

/-- sha.hexdigest(). -/
def hexdigest (st : HashState) : String :=
  let fw := finalWords st
  String.join ([fw.a, fw.b, fw.c, fw.d, fw.e, fw.f, fw.g, fw.h].map wordHex)

end Sha256

namespace FixtureStatus

/- ### fixture_status.py -/

/-- The fixture database file as the two views the script takes of it: the
raw bytes that are hashed, and the relational content whose tables are
counted.  A SQLite file's bytes determine its content; both are carried
explicitly because parsing the container format is out of scope. -/
structure FixtureFile where
  bytes : List Nat
  db : Dataset
deriving DecidableEq

/-- The metadata record gather_metadata builds (lines 70-84): fixture path
(a constant), resolved release, sha256 hex digest, per-table counts.  JSON
serialization round-trips these scalar fields structurally, so record and
verify exchange the value itself. -/
structure Meta where
  fixture : String
  release : String
  sha256 : String
  tables : List (String × Nat)
deriving DecidableEq

/-- The files the script touches, each optional (absence is the missing-file
error case).  The release marker is modelled as its list of text lines. -/
structure FsState where
  fixtureDb : Option FixtureFile
  releaseMarker : Option (List String)
  metadataFile : Option Meta
deriving DecidableEq

/-- compute_sha256 (lines 53-58): stream the file through the digest in
1 MiB reads until EOF. -/
def readChunks (l : List Nat) : List (List Nat) :=
  if l.isEmpty then []
  else l.take 1048576 :: readChunks (l.drop 1048576)
termination_by l.length
decreasing_by
  simp only [List.length_drop]
  cases l with
  | nil => simp_all
  | cons a t => simp; omega

def compute_sha256 (bytes : List Nat) : String :=
  Sha256.hexdigest ((readChunks bytes).foldl Sha256.update Sha256.init)

/-- Python str.strip on a character list: leading and trailing whitespace
removed. -/
def stripChars (l : List Char) : List Char :=
  ((l.dropWhile Char.isWhitespace).reverse.dropWhile Char.isWhitespace).reverse

/-- Python line.split at the first equals sign (split with maxsplit 1,
character code 61); returns nothing when the line has no equals sign. -/
def splitAtFirstEq : List Char → Option (List Char × List Char)
  | [] => none
  | ch :: rest =>
    if ch = Char.ofNat 61 then some ([], rest)
    else
      match splitAtFirstEq rest with
      | none => none
      | some (k, v) => some (ch :: k, v)

/-- Parse one release-marker line (read_release_marker, lines 42-47): strip
the line, skip it when blank or without an equals sign, split at the first
equals sign and strip key and value. -/
def parseMarkerLine (line : String) : Option (String × String) :=
  let cs := stripChars line.data
  if cs.isEmpty then none
  else
    match splitAtFirstEq cs with
    | none => none
    | some (k, v) => some (String.mk (stripChars k), String.mk (stripChars v))

def markerEntries (lines : List String) : List (String × String) :=
  lines.filterMap parseMarkerLine

/-- Last binding wins, as for a Python dict filled line by line. -/
def lookupLastStr (l : List (String × String)) (k : String) : Option String :=
  (l.reverse.find? (fun p => decide (p.1 = k))).map (fun p => p.2)

/-- read_release_marker (lines 37-50): the parsed entries must contain a
resolved= line, otherwise SystemExit. -/
def read_release_marker (marker : Option (List String)) :
    Except String (List (String × String)) :=
  match marker with
  | none => Except.error ("Release marker not found")
  | some lines =>
    let data := markerEntries lines
    match lookupLastStr data ("resolved") with
    | none => Except.error ("Release marker missing resolved entry")
    | some _ => Except.ok data

/-- count_tables (lines 61-67): exact per-table row counts over the fixed
table list. -/
def count_tables (db : Dataset) : List (String × Nat) :=
  [("Regions", db.regions.length), ("Constellations", db.constellations.length),
   ("SolarSystems", db.solarSystems.length), ("Jumps", db.jumps.length),
   ("Planets", db.planets.length), ("Moons", db.moons.length)]

/-- gather_metadata (lines 70-84): fails when the fixture file or the
release marker is missing or malformed, otherwise assembles the Meta
record. -/
def gather_metadata (s : FsState) : Except String Meta :=
  match s.fixtureDb with
  | none => Except.error ("Fixture database not found")
  | some f =>
    match read_release_marker s.releaseMarker with
    | Except.error e => Except.error e
    | Except.ok release =>
      match lookupLastStr release ("resolved") with
      | none => Except.error ("Release marker missing resolved entry")
      | some resolved =>
        Except.ok
          ⟨"docs/fixtures/minimal_static_data.db", resolved,
           compute_sha256 f.bytes, count_tables f.db⟩

/-- cmd_record (lines 92-95): persist the gathered metadata as the baseline
file. -/
def cmd_record (s : FsState) : Except String FsState :=
  match gather_metadata s with
  | Except.error e => Except.error e
  | Except.ok m => Except.ok { s with metadataFile := some m }

/-- cmd_verify (lines 98-111): a missing baseline is fatal; otherwise the
recomputed metadata is compared by exact structural equality against the
recorded baseline, and a mismatch exits non-zero. -/
def cmd_verify (s : FsState) : Except String Unit :=
  match s.metadataFile with
  | none => Except.error ("Metadata file missing")
  | some recorded =>
    match gather_metadata s with
    | Except.error e => Except.error e
    | Except.ok current =>
      if current = recorded then Except.ok ()
      else Except.error ("Current fixture metadata does not match recorded metadata.")

end FixtureStatus

namespace AnalyzeRoutes

/- ### analyze_sample_routes.py

The frequency reports on lines 48-51 and 78-81 print
Counter(all_system_ids).most_common(n).  A Counter iterates its (id, count)
items in first-insertion order, and most_common(n) is documented as
sorted(items, key=count, reverse=True)[:n] with a stable sort, so items with
equal counts keep their first-occurrence order. -/

/-- Counter(ids).items(): distinct ids in first-occurrence order, paired with
their multiplicities. -/
def countItems (ids : List Int) : List (Int × Nat) :=
  (firstDedup ids).map (fun i => (i, ids.count i))

/-- The stable descending-by-count order most_common sorts by: a before b
when the count of b is at most the count of a, ties keeping list order. -/
def byCountDesc (a b : Int × Nat) : Prop := b.2 ≤ a.2

instance : DecidableRel byCountDesc := fun a b => by
  unfold byCountDesc
  infer_instance

instance : IsTotal (Int × Nat) byCountDesc :=
  ⟨fun a b => Nat.le_total b.2 a.2⟩

instance : IsTrans (Int × Nat) byCountDesc :=
  ⟨fun _ _ _ hab hbc => Nat.le_trans hbc hab⟩

/-- counts.most_common(n): the n most frequent (id, count) pairs, stably
sorted by descending count. -/
def most_common (n : Nat) (ids : List Int) : List (Int × Nat) :=
  (List.insertionSort byCountDesc (countItems ids)).take n

end AnalyzeRoutes

namespace RouteFixture

/-- create_metadata (extract_route_fixture.py lines 304-306): the whole file
content is hashed in one hashlib call,
hashlib.sha256(f.read()).hexdigest(). -/
def file_sha256 (bytes : List Nat) : String :=
  Sha256.hexdigest (Sha256.update Sha256.init bytes)

end RouteFixture

/- ### Concrete instances used by witnesses and counterexamples -/

/-- A dataset with no rows at all. -/
def emptyDataset : Dataset := ⟨[], [], [], [], [], []⟩

/-- A small referentially complete dataset. -/
def wDataset : Dataset :=
  ⟨[⟨100, "R"⟩], [⟨200, "C", 100⟩],
   [⟨1, "A", 100, 200, 0, 0, 0⟩, ⟨2, "B", 100, 200, 1, 0, 0⟩],
   [⟨1, 2⟩, ⟨1, 3⟩], [⟨10, 1⟩], [⟨20, 10⟩]⟩

/-- A source dataset holding a Planet whose solar system has no row. -/
def danglingDataset : Dataset := ⟨[], [], [], [], [⟨10, 1⟩], []⟩

/-- A one-route corpus whose single path visits system 5 once. -/
def oneRoute : List RouteFixture.RouteRec := [⟨1, false, [5]⟩]

/-- A concrete file-system state for the record/verify round trip: an empty
fixture file, a release marker resolving to test, no recorded baseline. -/
def wFsState : FixtureStatus.FsState :=
  ⟨some ⟨[], emptyDataset⟩, some ["resolved=test"], none⟩

/- ### Helper lemmas -/

theorem mem_firstDedup (a : Int) (l : List Int) : a ∈ firstDedup l ↔ a ∈ l := by
  induction l with
  | nil => simp [firstDedup]
  | cons b l ih =>
    rw [firstDedup]
    by_cases hab : a = b
    · subst hab; simp
    · simp only [List.mem_cons, List.mem_filter, ih, decide_eq_true_eq]
      constructor
      · rintro (h | ⟨h, _⟩)
        · exact Or.inl h
        · exact Or.inr h
      · rintro (h | h)
        · exact Or.inl h
        · exact Or.inr ⟨h, hab⟩

theorem length_filter_mono {α : Type} (l : List α) (p q : α → Bool)
    (h : ∀ a ∈ l, p a = true → q a = true) :
    (l.filter p).length ≤ (l.filter q).length := by
  induction l with
  | nil => simp
  | cons x xs ih =>
    have ih' := ih (fun a ha hpa => h a (List.mem_cons_of_mem x ha) hpa)
    by_cases hp : p x = true
    · have hq := h x (List.mem_cons_self x xs) hp
      simp [List.filter, hp, hq]
      omega
    · by_cases hq : q x = true <;>
        simp [List.filter, hp, hq] <;> omega

theorem mem_corridor (routes : List RouteFixture.RouteRec) (t : Int) (i : Int) :
    i ∈ RouteFixture.corridor_systems routes t ↔
      (i ∈ RouteFixture.all_system_ids routes ∧ t ≤ (RouteFixture.counts routes i : Int)) := by
  unfold RouteFixture.corridor_systems
  rw [List.mem_filter, mem_firstDedup]
  simp

/- ### Claim theorems -/

/-- Claim C9: running the closure of extract_fixture_data with an empty
target system-id set produces an output with zero rows in every table (and
the run completes: the function is total; SQLite evaluates the generated
empty IN-lists as matching no rows). -/
theorem empty_target_closure_empty (src : Dataset) :
    RouteFixture.extract_fixture_data src [] = ⟨[], [], [], [], [], []⟩ := by
  unfold RouteFixture.extract_fixture_data
  simp [List.filter_eq_nil_iff]

/-- Claim C2: an edge of the source Jumps table is materialized exactly when
both of its endpoints belong to the target system-id set. -/
theorem jump_inclusion_iff (src : Dataset) (system_ids : List Int) (j : JumpRow)
    (hj : j ∈ src.jumps) :
    j ∈ (RouteFixture.extract_fixture_data src system_ids).jumps ↔
      (j.fromSystemId ∈ system_ids ∧ j.toSystemId ∈ system_ids) := by
  simp [RouteFixture.extract_fixture_data, List.mem_filter, hj]

/-- Witness for C2 at a concrete dataset, target set and edge. -/
theorem jump_inclusion_iff_witness :
    (⟨1, 2⟩ : JumpRow) ∈ (RouteFixture.extract_fixture_data wDataset [1, 2]).jumps ↔
      ((⟨1, 2⟩ : JumpRow).fromSystemId ∈ [(1 : Int), 2] ∧
        (⟨1, 2⟩ : JumpRow).toSystemId ∈ [(1 : Int), 2]) :=
  jump_inclusion_iff wDataset [1, 2] ⟨1, 2⟩ (by decide)

/-- Claim C3 (amended): for every route corpus and every integer threshold,
the corridor is exactly the ids occurring in the corpus whose occurrence
count (with multiplicity) reaches the threshold; a route is covered iff its
whole path lies in the corridor; the reported percentage is
100 * covered / total. -/
theorem corridor_analysis_characterization (routes : List RouteFixture.RouteRec)
    (threshold : Int) :
    (∀ i : Int, i ∈ RouteFixture.corridor_systems routes threshold ↔
        (i ∈ RouteFixture.all_system_ids routes ∧
          threshold ≤ (RouteFixture.counts routes i : Int))) ∧
    (∀ r : RouteFixture.RouteRec, r ∈ RouteFixture.corridor_routes routes threshold ↔
        (r ∈ routes ∧
          ∀ i ∈ r.path_ids, i ∈ RouteFixture.corridor_systems routes threshold)) ∧
    RouteFixture.coverage_pct routes threshold =
      100 * ((RouteFixture.corridor_routes routes threshold).length : ℚ) /
        (routes.length : ℚ) := by
  refine ⟨mem_corridor routes threshold, fun r => ?_, rfl⟩
  unfold RouteFixture.corridor_routes
  rw [List.mem_filter, List.all_eq_true]
  simp

/-- Counterexample for C3 as stated: at threshold 0 the id 7, which never
occurs, has occurrence count 0 which reaches the threshold, yet it is not in
the corridor the analyzer computes. -/
theorem corridor_zero_threshold_cex :
    (0 : Int) ≤ (RouteFixture.counts oneRoute 7 : Int) ∧
      (7 : Int) ∉ RouteFixture.corridor_systems oneRoute 0 := by decide

/-- Claim C4: for thresholds t1 < t2 the corridor at t1 contains the corridor
at t2 and the coverage percentage at t1 is at least the one at t2. -/
theorem corridor_threshold_monotonic (routes : List RouteFixture.RouteRec)
    (t1 t2 : Int) (h : t1 < t2) :
    (∀ i ∈ RouteFixture.corridor_systems routes t2,
        i ∈ RouteFixture.corridor_systems routes t1) ∧
      RouteFixture.coverage_pct routes t2 ≤ RouteFixture.coverage_pct routes t1 := by
  have hsub : ∀ i ∈ RouteFixture.corridor_systems routes t2,
      i ∈ RouteFixture.corridor_systems routes t1 := by
    intro i hi
    rw [mem_corridor] at hi ⊢
    exact ⟨hi.1, le_trans (le_of_lt h) hi.2⟩
  refine ⟨hsub, ?_⟩
  have hlen : (RouteFixture.corridor_routes routes t2).length ≤
      (RouteFixture.corridor_routes routes t1).length := by
    apply length_filter_mono
    intro r _ hr
    rw [List.all_eq_true] at hr ⊢
    intro i hi
    have := hr i hi
    rw [decide_eq_true_eq] at this ⊢
    exact hsub i this
  unfold RouteFixture.coverage_pct
  rcases Nat.eq_zero_or_pos routes.length with hn | hn
  · simp [hn]
  · have hcast : ((RouteFixture.corridor_routes routes t2).length : ℚ) ≤
        ((RouteFixture.corridor_routes routes t1).length : ℚ) := by exact_mod_cast hlen
    have hq : (0 : ℚ) < (routes.length : ℚ) := by exact_mod_cast hn
    gcongr

/-- Witness for C4 at a concrete corpus with thresholds 1 < 2. -/
theorem corridor_threshold_monotonic_witness :
    (∀ i ∈ RouteFixture.corridor_systems oneRoute 2,
        i ∈ RouteFixture.corridor_systems oneRoute 1) ∧
      RouteFixture.coverage_pct oneRoute 2 ≤ RouteFixture.coverage_pct oneRoute 1 :=
  corridor_threshold_monotonic oneRoute 1 2 (by decide)

/-- Claim C1 (amended): the materialized output has no dangling foreign keys
provided the source dataset itself has none: every source Planet must
reference an existing source SolarSystem and every source SolarSystem an
existing Region and Constellation.  The Moon-to-Planet conjunct needs no
hypothesis: moons are selected by the planet ids just materialized. -/
theorem referential_closure_complete (src : Dataset) (system_ids : List Int)
    (hp : ∀ p ∈ src.planets, ∃ s ∈ src.solarSystems, s.solarSystemId = p.solarSystemId)
    (hreg : ∀ s ∈ src.solarSystems, ∃ r ∈ src.regions, r.regionId = s.regionId)
    (hcon : ∀ s ∈ src.solarSystems,
      ∃ c ∈ src.constellations, c.constellationId = s.constellationId) :
    (∀ p ∈ (RouteFixture.extract_fixture_data src system_ids).planets,
        ∃ s ∈ (RouteFixture.extract_fixture_data src system_ids).solarSystems,
          s.solarSystemId = p.solarSystemId) ∧
    (∀ m ∈ (RouteFixture.extract_fixture_data src system_ids).moons,
        ∃ p ∈ (RouteFixture.extract_fixture_data src system_ids).planets,
          p.planetId = m.planetId) ∧
    (∀ s ∈ (RouteFixture.extract_fixture_data src system_ids).solarSystems,
        ∃ r ∈ (RouteFixture.extract_fixture_data src system_ids).regions,
          r.regionId = s.regionId) ∧
    (∀ s ∈ (RouteFixture.extract_fixture_data src system_ids).solarSystems,
        ∃ c ∈ (RouteFixture.extract_fixture_data src system_ids).constellations,
          c.constellationId = s.constellationId) := by
  unfold RouteFixture.extract_fixture_data
  simp only []
  refine ⟨?_, ?_, ?_, ?_⟩
  · intro p hmem
    rw [List.mem_filter, decide_eq_true_eq] at hmem
    obtain ⟨s, hs, hsid⟩ := hp p hmem.1
    exact ⟨s, List.mem_filter.mpr ⟨hs, by rw [decide_eq_true_eq, hsid]; exact hmem.2⟩, hsid⟩
  · intro m hmem
    by_cases hempty :
        ((src.planets.filter (fun p => decide (p.solarSystemId ∈ system_ids))).map
          (fun p => p.planetId)).isEmpty
    · rw [if_pos hempty] at hmem
      cases hmem
    · rw [if_neg hempty, List.mem_filter, decide_eq_true_eq] at hmem
      obtain ⟨p, hpmem, hpid⟩ := List.mem_map.mp hmem.2
      exact ⟨p, hpmem, hpid⟩
  · intro s hmem
    have hmem' := hmem
    rw [List.mem_filter, decide_eq_true_eq] at hmem'
    obtain ⟨r, hr, hrid⟩ := hreg s hmem'.1
    refine ⟨r, List.mem_filter.mpr ⟨hr, ?_⟩, hrid⟩
    rw [decide_eq_true_eq, hrid]
    exact List.mem_map.mpr ⟨s, hmem, rfl⟩
  · intro s hmem
    have hmem' := hmem
    rw [List.mem_filter, decide_eq_true_eq] at hmem'
    obtain ⟨c, hc, hcid⟩ := hcon s hmem'.1
    refine ⟨c, List.mem_filter.mpr ⟨hc, ?_⟩, hcid⟩
    rw [decide_eq_true_eq, hcid]
    exact List.mem_map.mpr ⟨s, hmem, rfl⟩

/-- Witness for C1 at a concrete referentially complete dataset. -/
theorem referential_closure_complete_witness :
    (∀ p ∈ (RouteFixture.extract_fixture_data wDataset [1, 2]).planets,
        ∃ s ∈ (RouteFixture.extract_fixture_data wDataset [1, 2]).solarSystems,
          s.solarSystemId = p.solarSystemId) ∧
    (∀ m ∈ (RouteFixture.extract_fixture_data wDataset [1, 2]).moons,
        ∃ p ∈ (RouteFixture.extract_fixture_data wDataset [1, 2]).planets,
          p.planetId = m.planetId) ∧
    (∀ s ∈ (RouteFixture.extract_fixture_data wDataset [1, 2]).solarSystems,
        ∃ r ∈ (RouteFixture.extract_fixture_data wDataset [1, 2]).regions,
          r.regionId = s.regionId) ∧
    (∀ s ∈ (RouteFixture.extract_fixture_data wDataset [1, 2]).solarSystems,
        ∃ c ∈ (RouteFixture.extract_fixture_data wDataset [1, 2]).constellations,
          c.constellationId = s.constellationId) :=
  referential_closure_complete wDataset [1, 2] (by decide) (by decide) (by decide)

/-- Counterexample for C1 as stated over every source dataset: a source
holding a Planet of solar system 1 but no SolarSystems row at all yields an
output whose Planet references a system absent from the output. -/
theorem referential_closure_cex :
    ¬ (∀ p ∈ (RouteFixture.extract_fixture_data danglingDataset [1]).planets,
        ∃ s ∈ (RouteFixture.extract_fixture_data danglingDataset [1]).solarSystems,
          s.solarSystemId = p.solarSystemId) := by decide

/-- Claim C5 (amended): the gate-adjacency resolver returns exactly the
one-hop neighbors of the seeds in either edge direction together with those
seeds that have a SolarSystems row (SELECT solarSystemId FROM SolarSystems
WHERE solarSystemId IN seeds); a seed id without a row is dropped, and
nothing else, in particular no system two or more hops away, is included. -/
theorem gate_adjacency_characterization (d : Dataset) (target_ids : List Int) (i : Int) :
    i ∈ DatasetFixture.get_gate_connected_systems d target_ids ↔
      ((∃ j ∈ d.jumps, j.toSystemId ∈ target_ids ∧ j.fromSystemId = i) ∨
       (∃ j ∈ d.jumps, j.fromSystemId ∈ target_ids ∧ j.toSystemId = i) ∨
       (i ∈ target_ids ∧ ∃ s ∈ d.solarSystems, s.solarSystemId = i)) := by
  unfold DatasetFixture.get_gate_connected_systems
  rw [mem_firstDedup]
  simp only [List.mem_append, List.mem_map, List.mem_filter, decide_eq_true_eq]
  constructor
  · rintro ((⟨j, ⟨hj, hmem⟩, hid⟩ | ⟨j, ⟨hj, hmem⟩, hid⟩) | ⟨s, ⟨hs, hmem⟩, hid⟩)
    · exact Or.inl ⟨j, hj, hmem, hid⟩
    · exact Or.inr (Or.inl ⟨j, hj, hmem, hid⟩)
    · exact Or.inr (Or.inr ⟨hid ▸ hmem, s, hs, hid⟩)
  · rintro (⟨j, hj, hmem, hid⟩ | ⟨j, hj, hmem, hid⟩ | ⟨hmem, s, hs, hid⟩)
    · exact Or.inl (Or.inl ⟨j, ⟨hj, hmem⟩, hid⟩)
    · exact Or.inl (Or.inr ⟨j, ⟨hj, hmem⟩, hid⟩)
    · exact Or.inr ⟨s, ⟨hs, hid ▸ hmem⟩, hid⟩

/-- Counterexample for C5 as stated: with no SolarSystems rows the seed id 1
is not returned, although the claim includes every seed unconditionally. -/
theorem gate_adjacency_seed_dropped :
    (1 : Int) ∈ [(1 : Int)] ∧
      (1 : Int) ∉ DatasetFixture.get_gate_connected_systems emptyDataset [(1 : Int)] := by
  decide

/-- Claim C6: when a required seed (Nod or Brana) matches no SolarSystems
row, the extraction terminates with an explicit error and produces no
output. -/
theorem unresolved_seed_fatal (d : Dataset)
    (h : (∀ s ∈ d.solarSystems, s.name ≠ "Nod") ∨
      (∀ s ∈ d.solarSystems, s.name ≠ "Brana")) :
    ∃ e, DatasetFixture.extract_fixture_data d = Except.error e := by
  have hg : DatasetFixture.get_target_system_ids d =
      Except.error ("Error: Could not find required systems.") := by
    unfold DatasetFixture.get_target_system_ids
    rw [if_neg]
    rintro ⟨hNod, hBrana⟩
    rcases h with h | h
    · obtain ⟨q, hq, hqname⟩ := List.mem_map.mp hNod
      obtain ⟨s, hs, hsq⟩ := List.mem_map.mp hq
      have hsmem := (List.mem_filter.mp hs).1
      exact h s hsmem (by rw [← hqname, ← hsq])
    · obtain ⟨q, hq, hqname⟩ := List.mem_map.mp hBrana
      obtain ⟨s, hs, hsq⟩ := List.mem_map.mp hq
      have hsmem := (List.mem_filter.mp hs).1
      exact h s hsmem (by rw [← hqname, ← hsq])
  refine ⟨"Error: Could not find required systems.", ?_⟩
  unfold DatasetFixture.extract_fixture_data
  rw [hg]

/-- Witness for C6 at a dataset with no SolarSystems rows at all. -/
theorem unresolved_seed_fatal_witness :
    ∃ e, DatasetFixture.extract_fixture_data emptyDataset = Except.error e :=
  unresolved_seed_fatal emptyDataset (Or.inl (by decide))

theorem filter_count_orderedInsert (c : Nat) (x : Int × Nat) (l : List (Int × Nat)) :
    (l.orderedInsert AnalyzeRoutes.byCountDesc x).filter (fun q => decide (q.2 = c)) =
      if x.2 = c then x :: l.filter (fun q => decide (q.2 = c))
      else l.filter (fun q => decide (q.2 = c)) := by
  induction l with
  | nil =>
    by_cases hx : x.2 = c <;> simp [List.orderedInsert, List.filter, hx]
  | cons y ys ih =>
    rw [List.orderedInsert]
    by_cases hxy : AnalyzeRoutes.byCountDesc x y
    · rw [if_pos hxy]
      by_cases hx : x.2 = c <;> by_cases hy : y.2 = c <;>
        simp [List.filter, hx, hy]
    · rw [if_neg hxy]
      by_cases hy : y.2 = c
      · have hx : ¬ x.2 = c := by
          intro hx
          exact hxy (by unfold AnalyzeRoutes.byCountDesc; omega)
        simp [List.filter, hy, hx, ih]
      · by_cases hx : x.2 = c <;> simp [List.filter, hy, hx, ih]

theorem filter_count_insertionSort (c : Nat) (l : List (Int × Nat)) :
    (List.insertionSort AnalyzeRoutes.byCountDesc l).filter (fun q => decide (q.2 = c)) =
      l.filter (fun q => decide (q.2 = c)) := by
  induction l with
  | nil => rfl
  | cons x xs ih =>
    rw [List.insertionSort, filter_count_orderedInsert]
    by_cases hx : x.2 = c <;> simp [List.filter, hx, ih]

/-- Claim C8 (amended): the top-N frequency report is sorted by descending
occurrence count, and entries with equal counts appear in order of first
occurrence in the corpus (Counter insertion order), not in ascending numeric
id: for every count value, filtering the sorted items to that count yields
exactly the first-occurrence-ordered items of that count, and the reported
list is the n-prefix of that sorted sequence. -/
theorem frequency_report_stable (ids : List Int) (c : Nat) (n : Nat) :
    (List.insertionSort AnalyzeRoutes.byCountDesc
        (AnalyzeRoutes.countItems ids)).Sorted AnalyzeRoutes.byCountDesc ∧
    (List.insertionSort AnalyzeRoutes.byCountDesc
          (AnalyzeRoutes.countItems ids)).filter (fun q => decide (q.2 = c)) =
      (AnalyzeRoutes.countItems ids).filter (fun q => decide (q.2 = c)) ∧
    AnalyzeRoutes.most_common n ids =
      (List.insertionSort AnalyzeRoutes.byCountDesc
        (AnalyzeRoutes.countItems ids)).take n :=
  ⟨List.sorted_insertionSort AnalyzeRoutes.byCountDesc (AnalyzeRoutes.countItems ids),
   filter_count_insertionSort c (AnalyzeRoutes.countItems ids), rfl⟩

/-- Counterexample for C8 as stated: in the corpus whose hops are 7 then 3,
both systems occur once, yet the report lists 7 before 3 - ids with equal
counts are not in ascending numeric order. -/
theorem frequency_tie_not_ascending :
    AnalyzeRoutes.most_common 30 [7, 3] = [(7, 1), (3, 1)] ∧
      ¬ ((AnalyzeRoutes.most_common 30 [7, 3]).Pairwise
          (fun a b => a.2 = b.2 → a.1 ≤ b.1)) := by decide

/-- Claim C7: recording the fingerprint and immediately verifying against it,
with the fixture file, release marker and recorded baseline unchanged in
between, always passes: verify recomputes the metadata and compares it by
exact structural equality with the just-persisted baseline. -/
theorem record_then_verify (s s' : FixtureStatus.FsState)
    (h : FixtureStatus.cmd_record s = Except.ok s') :
    FixtureStatus.cmd_verify s' = Except.ok () := by
  unfold FixtureStatus.cmd_record at h
  cases hg : FixtureStatus.gather_metadata s with
  | error e => rw [hg] at h; cases h
  | ok m =>
    rw [hg] at h
    cases h
    have hg2 : FixtureStatus.gather_metadata { s with metadataFile := some m } =
        Except.ok m := hg
    unfold FixtureStatus.cmd_verify
    rw [hg2]
    simp

/-- Witness for C7 at a concrete state holding an empty fixture file and a
marker resolving to test. -/
theorem record_then_verify_witness :
    ∃ s', FixtureStatus.cmd_record wFsState = Except.ok s' ∧
      FixtureStatus.cmd_verify s' = Except.ok () :=
  ⟨_, rfl, record_then_verify wFsState _ rfl⟩

theorem absorbBlocks_buffer_lt (hv : Sha256.Words8) (d : List Nat) :
    (Sha256.absorbBlocks hv d).2.length < 64 := by
  induction hv, d using Sha256.absorbBlocks.induct with
  | case1 hv d hd ih =>
    rw [Sha256.absorbBlocks, dif_pos hd]
    exact ih
  | case2 hv d hd =>
    rw [Sha256.absorbBlocks, dif_neg hd]
    show d.length < 64
    omega

theorem absorbBlocks_append (hv : Sha256.Words8) (d b : List Nat) :
    Sha256.absorbBlocks hv (d ++ b) =
      Sha256.absorbBlocks (Sha256.absorbBlocks hv d).1
        ((Sha256.absorbBlocks hv d).2 ++ b) := by
  induction hv, d using Sha256.absorbBlocks.induct with
  | case1 hv d hd ih =>
    have hdb : 64 ≤ (d ++ b).length := by
      rw [List.length_append]; omega
    have h1 : Sha256.absorbBlocks hv d =
        Sha256.absorbBlocks (Sha256.compress hv (d.take 64)) (d.drop 64) := by
      rw [Sha256.absorbBlocks, dif_pos hd]
    calc Sha256.absorbBlocks hv (d ++ b)
        = Sha256.absorbBlocks (Sha256.compress hv ((d ++ b).take 64)) ((d ++ b).drop 64) := by
          rw [Sha256.absorbBlocks, dif_pos hdb]
      _ = Sha256.absorbBlocks (Sha256.compress hv (d.take 64)) (d.drop 64 ++ b) := by
          rw [List.take_append_of_le_length hd, List.drop_append_of_le_length hd]
      _ = Sha256.absorbBlocks
            (Sha256.absorbBlocks (Sha256.compress hv (d.take 64)) (d.drop 64)).1
            ((Sha256.absorbBlocks (Sha256.compress hv (d.take 64)) (d.drop 64)).2 ++ b) := ih
      _ = Sha256.absorbBlocks (Sha256.absorbBlocks hv d).1
            ((Sha256.absorbBlocks hv d).2 ++ b) := by rw [h1]
  | case2 hv d hd =>
    have h1 : Sha256.absorbBlocks hv d = (hv, d) := by
      rw [Sha256.absorbBlocks, dif_neg hd]
    rw [h1]

theorem update_update (st : Sha256.HashState) (a b : List Nat) :
    Sha256.update (Sha256.update st a) b = Sha256.update st (a ++ b) := by
  unfold Sha256.update
  have habs := absorbBlocks_append st.hs (st.buffer ++ a) b
  rw [← List.append_assoc] at *
  rw [habs]
  simp [Nat.add_assoc]

theorem update_nil (st : Sha256.HashState) (hb : st.buffer.length < 64) :
    Sha256.update st [] = st := by
  unfold Sha256.update
  rw [List.append_nil, Sha256.absorbBlocks, dif_neg (by omega)]
  rfl

theorem foldl_update_readChunks (l : List Nat) (st : Sha256.HashState)
    (hb : st.buffer.length < 64) :
    (FixtureStatus.readChunks l).foldl Sha256.update st = Sha256.update st l := by
  induction l using FixtureStatus.readChunks.induct generalizing st with
  | case1 l hl =>
    rw [FixtureStatus.readChunks, if_pos hl]
    rw [List.isEmpty_iff] at hl
    subst hl
    rw [List.foldl_nil, update_nil st hb]
  | case2 l hl ih =>
    rw [FixtureStatus.readChunks, if_neg hl]
    rw [List.foldl_cons]
    rw [ih (Sha256.update st (l.take 1048576)) (absorbBlocks_buffer_lt _ _)]
    rw [update_update, List.take_append_drop]

/-- Claim C10: the chunked streaming SHA-256 of fixture_status.compute_sha256
(1 MiB reads folded through update until EOF) produces the same hexadecimal
digest as the single-call hash of the whole byte content used by
create_metadata in extract_route_fixture.py, for every byte sequence. -/
theorem sha256_chunked_eq_oneshot (bytes : List Nat) :
    FixtureStatus.compute_sha256 bytes = RouteFixture.file_sha256 bytes := by
  unfold FixtureStatus.compute_sha256 RouteFixture.file_sha256
  rw [foldl_update_readChunks bytes Sha256.init (by simp [Sha256.init])]
